import Mathlib

/-!
Shallow embedding of `src/src/geom/mesh/Model.js`, the Phaser `Model` game
object: packed vertex buffer, vertex/face read accessors, dirty-cache change
detection, ingestion, and the per-tick transform/normal matrix recompute.

JavaScript numbers are modelled as exact rationals: every float32 value is a
rational, and none of the operations under study round. The `Float32Array`
view over the fixed `ArrayBuffer` is modelled as a `List ℚ` of fixed length
with typed-array semantics: an out-of-range write is silently discarded
(`List.set` is a no-op out of range, which matches exactly), and an
out-of-range read yields `undefined`, modelled as `none : Option ℚ`.
-/

namespace Phaser

/-- A 3-component vector, the components of the Phaser `Vector3` (the class
itself lives outside `src/`; only its `x`, `y`, `z` slots are read here). -/
structure Vec3 where
  x : ℚ
  y : ℚ
  z : ℚ
deriving DecidableEq

/-- A quaternion, the components of the Phaser `Quaternion` (the class lives
outside `src/`; only its `x`, `y`, `z`, `w` slots are read here). -/
structure Quat where
  x : ℚ
  y : ℚ
  z : ℚ
  w : ℚ
deriving DecidableEq

/-- Modelled from the spec: the Phaser `Quaternion` class is not under `src/`;
the spec calls the default rotation the identity quaternion, `(0, 0, 0, 1)`. -/
def Quat.fresh : Quat := ⟨0, 0, 0, 1⟩

/-- Modelled from the spec: the Phaser `Matrix4` class is not under `src/`. A
4×4 matrix with the 16 entries of the column-major `val` array (`m0`..`m15`
mirror `val[0..15]`; `m12`, `m13`, `m14` are the translation slots). -/
structure Matrix4 where
  m0 : ℚ
  m1 : ℚ
  m2 : ℚ
  m3 : ℚ
  m4 : ℚ
  m5 : ℚ
  m6 : ℚ
  m7 : ℚ
  m8 : ℚ
  m9 : ℚ
  m10 : ℚ
  m11 : ℚ
  m12 : ℚ
  m13 : ℚ
  m14 : ℚ
  m15 : ℚ
deriving DecidableEq

/-- Modelled from the spec: a fresh `Matrix4` is the identity matrix. -/
def Matrix4.identity : Matrix4 :=
  ⟨1, 0, 0, 0, 0, 1, 0, 0, 0, 0, 1, 0, 0, 0, 0, 1⟩

/-- Modelled from the spec: `Matrix4.fromRotationTranslation(q, v)` composes
the rotation matrix of the quaternion with the translation in the fourth
column (slots `m12..m14`) — the spec phrase "translation ∘ rotation composed"
(§3), the standard gl-matrix construction. -/
def Matrix4.fromRotationTranslation (q : Quat) (v : Vec3) : Matrix4 :=
  let x := q.x
  let y := q.y
  let z := q.z
  let w := q.w
  let x2 := x + x
  let y2 := y + y
  let z2 := z + z
  let xx := x * x2
  let xy := x * y2
  let xz := x * z2
  let yy := y * y2
  let yz := y * z2
  let zz := z * z2
  let wx := w * x2
  let wy := w * y2
  let wz := w * z2
  ⟨1 - (yy + zz), xy + wz, xz - wy, 0,
   xy - wz, 1 - (xx + zz), yz + wx, 0,
   xz + wy, yz - wx, 1 - (xx + yy), 0,
   v.x, v.y, v.z, 1⟩

/-- Modelled from the spec: `Matrix4.scale(v)` concatenates the scale as a
secondary operation (§3 "then scaled, by concatenation"), multiplying the
first three columns by `v.x`, `v.y`, `v.z` and leaving the translation column
untouched. -/
def Matrix4.scale (a : Matrix4) (v : Vec3) : Matrix4 :=
  ⟨a.m0 * v.x, a.m1 * v.x, a.m2 * v.x, a.m3 * v.x,
   a.m4 * v.y, a.m5 * v.y, a.m6 * v.y, a.m7 * v.y,
   a.m8 * v.z, a.m9 * v.z, a.m10 * v.z, a.m11 * v.z,
   a.m12, a.m13, a.m14, a.m15⟩

/-- Modelled from the spec: full 4×4 matrix transpose. -/
def Matrix4.transpose (a : Matrix4) : Matrix4 :=
  ⟨a.m0, a.m4, a.m8, a.m12,
   a.m1, a.m5, a.m9, a.m13,
   a.m2, a.m6, a.m10, a.m14,
   a.m3, a.m7, a.m11, a.m15⟩

/-- Modelled from the spec: full 4×4 inverse by cofactor expansion (the
gl-matrix `invert` that the spec, with its inverse-transpose normal matrix, refers
to); a singular matrix is returned unchanged (the reference bails out without
writing when the determinant is zero). -/
def Matrix4.invert (a : Matrix4) : Matrix4 :=
  let b00 := a.m0 * a.m5 - a.m1 * a.m4
  let b01 := a.m0 * a.m6 - a.m2 * a.m4
  let b02 := a.m0 * a.m7 - a.m3 * a.m4
  let b03 := a.m1 * a.m6 - a.m2 * a.m5
  let b04 := a.m1 * a.m7 - a.m3 * a.m5
  let b05 := a.m2 * a.m7 - a.m3 * a.m6
  let b06 := a.m8 * a.m13 - a.m9 * a.m12
  let b07 := a.m8 * a.m14 - a.m10 * a.m12
  let b08 := a.m8 * a.m15 - a.m11 * a.m12
  let b09 := a.m9 * a.m14 - a.m10 * a.m13
  let b10 := a.m9 * a.m15 - a.m11 * a.m13
  let b11 := a.m10 * a.m15 - a.m11 * a.m14
  let det := b00 * b11 - b01 * b10 + b02 * b09 + b03 * b08 - b04 * b07 + b05 * b06
  if det = 0 then a
  else
    ⟨(a.m5 * b11 - a.m6 * b10 + a.m7 * b09) / det,
     (a.m2 * b10 - a.m1 * b11 - a.m3 * b09) / det,
     (a.m13 * b05 - a.m14 * b04 + a.m15 * b03) / det,
     (a.m10 * b04 - a.m9 * b05 - a.m11 * b03) / det,
     (a.m6 * b08 - a.m4 * b11 - a.m7 * b07) / det,
     (a.m0 * b11 - a.m2 * b08 + a.m3 * b07) / det,
     (a.m14 * b02 - a.m12 * b05 - a.m15 * b01) / det,
     (a.m8 * b05 - a.m10 * b02 + a.m11 * b01) / det,
     (a.m4 * b10 - a.m5 * b08 + a.m7 * b06) / det,
     (a.m1 * b08 - a.m0 * b10 - a.m3 * b06) / det,
     (a.m12 * b04 - a.m13 * b02 + a.m15 * b00) / det,
     (a.m9 * b02 - a.m8 * b04 - a.m11 * b00) / det,
     (a.m5 * b07 - a.m4 * b09 - a.m6 * b06) / det,
     (a.m0 * b09 - a.m1 * b07 + a.m2 * b06) / det,
     (a.m13 * b01 - a.m12 * b03 - a.m14 * b00) / det,
     (a.m8 * b03 - a.m9 * b01 + a.m10 * b00) / det⟩

/-- The 11-slot dirty cache: position(3) | rotation(4) | scale(3) | vertex
count(1), mirroring `this.dirtyCache = [x, y, z, 0, 0, 0, 1, 1, 1, 1, 0]`
(fields `px..vcount` stand for array slots 0..10). -/
structure DirtyCache where
  px : ℚ
  py : ℚ
  pz : ℚ
  rx : ℚ
  ry : ℚ
  rz : ℚ
  rw : ℚ
  sx : ℚ
  sy : ℚ
  sz : ℚ
  vcount : ℚ
deriving DecidableEq

/-- The decoded vertex view returned by `getVertex`: position, normal and UV
as read from the buffer (`none` models a JavaScript `undefined` read past the
view length), plus the constant `alpha: 1`. -/
structure Vertex where
  x : Option ℚ
  y : Option ℚ
  z : Option ℚ
  u : Option ℚ
  v : Option ℚ
  normalX : Option ℚ
  normalY : Option ℚ
  normalZ : Option ℚ
  alpha : ℚ
deriving DecidableEq

/-- The face view returned by `getFace`. The source assigns the numeric
literal `3` to the `vertex3` field rather than a vertex, so the field is a
sum: `.inl` a decoded vertex, `.inr` a plain number. -/
structure Face where
  vertex1 : Vertex
  vertex2 : Vertex
  vertex3 : Vertex ⊕ ℚ
  isCounterClockwise : Bool
deriving DecidableEq

/-- Errors thrown by `addVertices`: the explicit shape-mismatch `Error`, and
the `TypeError` raised when the body dereferences `this.vertices`, a field
that `Model` never defines. -/
inductive MeshError where
  | shapeMismatch
  | typeError
deriving DecidableEq

/-- The `Model` state: the fields of `Model.js` that the geometry core reads
or writes. `vertexViewF32` is the `Float32Array` view over `vertexData`
(length = capacity · 8 floats). External engine wiring (mesh, scene, anims,
texture, ambient/diffuse/specular, shine) is omitted: no modelled operation
reads it. -/
structure Model where
  vertexCount : ℕ
  vertexViewF32 : List ℚ
  position : Vec3
  scale : Vec3
  rotation : Quat
  dirtyCache : DirtyCache
  normalMatrix : Matrix4
  transformMatrix : Matrix4
deriving DecidableEq

/-- The `Model` constructor (`function Model (mesh, verticesCount, texture,
frame, x, y, z)`) restricted to the geometry fields: a zeroed buffer of
`verticesCount · 8` floats (a fresh `ArrayBuffer` is zero-filled), position
`(x, y, z)`, unit scale, a fresh quaternion and fresh matrices (identity,
see `Quat.fresh` / `Matrix4.identity`), and the dirty cache pre-seeded with
`[x, y, z, 0, 0, 0, 1, 1, 1, 1, 0]`. -/
def mkModel (verticesCount : ℕ) (x y z : ℚ) : Model where
  vertexCount := 0
  vertexViewF32 := List.replicate (verticesCount * 8) 0
  position := ⟨x, y, z⟩
  scale := ⟨1, 1, 1⟩
  rotation := Quat.fresh
  dirtyCache := ⟨x, y, z, 0, 0, 0, 1, 1, 1, 1, 0⟩
  normalMatrix := Matrix4.identity
  transformMatrix := Matrix4.identity

/-- The 11-slot tuple of the live monitored fields, in dirty-cache slot
order: position, rotation, scale, vertex count. -/
def currentTuple (m : Model) : DirtyCache :=
  ⟨m.position.x, m.position.y, m.position.z,
   m.rotation.x, m.rotation.y, m.rotation.z, m.rotation.w,
   m.scale.x, m.scale.y, m.scale.z, (m.vertexCount : ℚ)⟩

/-- `Model.isDirty`: compares every cached slot against the live value,
unconditionally overwrites the snapshot with the live values, and returns
whether any slot differed. The boolean is returned together with the updated
state (the source mutates `this.dirtyCache` in place). -/
def Model.isDirty (m : Model) : Bool × Model :=
  let c := m.dirtyCache
  let dirty :=
    decide (c.px ≠ m.position.x) || decide (c.py ≠ m.position.y) ||
    decide (c.pz ≠ m.position.z) ||
    decide (c.rx ≠ m.rotation.x) || decide (c.ry ≠ m.rotation.y) ||
    decide (c.rz ≠ m.rotation.z) || decide (c.rw ≠ m.rotation.w) ||
    decide (c.sx ≠ m.scale.x) || decide (c.sy ≠ m.scale.y) ||
    decide (c.sz ≠ m.scale.z) ||
    decide (c.vcount ≠ (m.vertexCount : ℚ))
  (dirty, { m with dirtyCache := currentTuple m })

/-- `Model.preUpdate` (the spec calls it `preTick`): advances the animation state (an
external collaborator with no effect on the geometry fields), then, only when
`isDirty` reports a change, rebuilds `transformMatrix` as
`fromRotationTranslation(rotation, position)` followed by `scale(scale)`, and
`normalMatrix` as copy → invert → transpose of that same scaled transform
matrix. -/
def Model.preUpdate (m : Model) : Model :=
  let r := m.isDirty
  let m1 := r.2
  if r.1 then
    let tm := (Matrix4.fromRotationTranslation m1.rotation m1.position).scale m1.scale
    let nm := tm.invert.transpose
    { m1 with transformMatrix := tm, normalMatrix := nm }
  else
    m1

/-- `Model.getFaceCount`: `this.vertexCount / 3` with JavaScript number
division, i.e. exact rational division (a count that is not a multiple of 3
yields a fractional result, as the spec notes). -/
def Model.getFaceCount (m : Model) : ℚ :=
  (m.vertexCount : ℚ) / 3

/-- `Model.getVertex`: decodes the 8 floats at view offsets
`index·8 .. index·8+7` (the source initialises `vertexOffset = index*8 - 1`
and pre-increments), layout `[x, y, z, nx, ny, nz, u, v]`, and always reports
`alpha: 1`. -/
def Model.getVertex (m : Model) (index : ℕ) : Vertex :=
  let b := m.vertexViewF32
  let o := index * 8
  { x := b[o]?, y := b[o + 1]?, z := b[o + 2]?,
    normalX := b[o + 3]?, normalY := b[o + 4]?, normalZ := b[o + 5]?,
    u := b[o + 6]?, v := b[o + 7]?, alpha := 1 }

/-- JavaScript subtraction where either operand may be `undefined`: any
arithmetic with `undefined` is `NaN`, modelled as `none` propagating. -/
def jsub : Option ℚ → Option ℚ → Option ℚ
  | some a, some b => some (a - b)
  | _, _ => none

/-- JavaScript multiplication with `undefined`/`NaN` propagation. -/
def jmul : Option ℚ → Option ℚ → Option ℚ
  | some a, some b => some (a * b)
  | _, _ => none

/-- JavaScript `>= 0`: any comparison against `NaN` is false. -/
def jge0 : Option ℚ → Bool
  | some a => decide (0 ≤ a)
  | none => false

/-- `Model.getFace`: reads the three vertices at `index·3, index·3+1,
index·3+2` via `getVertex`, computes the 2D cross-product winding test
`(v2.x−v1.x)·(v3.y−v1.y) − (v2.y−v1.y)·(v3.x−v1.x) >= 0`, and returns the
face record. The source assigns the numeric literal `3` — not `v3` — to the
`vertex3` field. -/
def Model.getFace (m : Model) (index : ℕ) : Face :=
  let offset := index * 3
  let v1 := m.getVertex offset
  let v2 := m.getVertex (offset + 1)
  let v3 := m.getVertex (offset + 2)
  let ccw := jge0 (jsub (jmul (jsub v2.x v1.x) (jsub v3.y v1.y))
                        (jmul (jsub v2.y v1.y) (jsub v3.x v1.x)))
  { vertex1 := v1, vertex2 := v2, vertex3 := Sum.inr 3, isCounterClockwise := ccw }

/-- `Model.addVertex`: writes the 8 attributes at view offsets
`vertexCount·8 .. vertexCount·8+7` in the order `[x, y, z, nx, ny, nz, u, v]`
and increments `vertexCount`. There is no capacity check: a write past the
view length is silently discarded, as for a JavaScript typed array. -/
def Model.addVertex (m : Model) (x y z u v normalX normalY normalZ : ℚ) : Model :=
  let o := m.vertexCount * 8
  let b := ((((((((m.vertexViewF32.set o x).set (o + 1) y).set (o + 2) z).set
      (o + 3) normalX).set (o + 4) normalY).set (o + 5) normalZ).set
      (o + 6) u).set (o + 7) v)
  { m with vertexViewF32 := b, vertexCount := m.vertexCount + 1 }

/-- `Model.addVertices`: validates `vertices.length !== uvs.length` first,
throwing the shape-mismatch `Error` before anything else. Past that check the
body reads `verts = this.vertices` and `faces = this.faces`; the `Model`
constructor never defines either field (the body was written for the `Mesh`
game object), so both are `undefined` and the first use — `verts.push(vert)`
in either the indexed or the pairwise branch, or `verts.length` in the
face-grouping loop when both loops are empty — throws a `TypeError`. Every
path therefore throws without mutating the model. The optional index array is
kept in the signature for fidelity; it, and the color/alpha arguments
(defaulted before the throw and only fed to dead `Vertex` constructions),
never affect the outcome. -/
def Model.addVertices (m : Model) (vertices uvs : List ℚ)
    (indicies : Option (List ℕ)) : Except MeshError Model :=
  if vertices.length ≠ uvs.length then
    Except.error MeshError.shapeMismatch
  else
    Except.error MeshError.typeError

/-- The `x` accessor: a direct set proxy into `position.x`. -/
def Model.setX (m : Model) (value : ℚ) : Model :=
  { m with position := { m.position with x := value } }

/-- The `y` accessor: a direct set proxy into `position.y`. -/
def Model.setY (m : Model) (value : ℚ) : Model :=
  { m with position := { m.position with y := value } }

/-- The `z` accessor: a direct set proxy into `position.z`. -/
def Model.setZ (m : Model) (value : ℚ) : Model :=
  { m with position := { m.position with z := value } }

/-- The `scaleX` accessor: a direct set proxy into `scale.x`. -/
def Model.setScaleX (m : Model) (value : ℚ) : Model :=
  { m with scale := { m.scale with x := value } }

/-- The `scaleY` accessor: a direct set proxy into `scale.y`. -/
def Model.setScaleY (m : Model) (value : ℚ) : Model :=
  { m with scale := { m.scale with y := value } }

/-- The `scaleZ` accessor: a direct set proxy into `scale.z`. -/
def Model.setScaleZ (m : Model) (value : ℚ) : Model :=
  { m with scale := { m.scale with z := value } }

/-- A concrete model holding the counter-clockwise triangle (0,0), (1,0),
(0,1), ingested through `addVertex`. -/
def modelTri : Model :=
  (((mkModel 3 0 0 0).addVertex 0 0 0 0 0 0 0 0).addVertex
    1 0 0 0 0 0 0 0).addVertex 0 1 0 0 0 0 0 0

/-- A concrete model holding the clockwise triangle (0,0), (0,1), (1,0). -/
def modelTriCW : Model :=
  (((mkModel 3 0 0 0).addVertex 0 0 0 0 0 0 0 0).addVertex
    0 1 0 0 0 0 0 0).addVertex 1 0 0 0 0 0 0 0

/-- The model of the C7 scenario: a fresh model whose position is then set to
(1, 2, 3) through the axis accessors, so the next tick detects the change. -/
def modelT123 : Model :=
  (((mkModel 1 0 0 0).setX 1).setY 2).setZ 3

/-- The pure translation matrix by (1, 2, 3): identity with the translation
in column-major slots 12..14. -/
def translation123 : Matrix4 :=
  ⟨1, 0, 0, 0, 0, 1, 0, 0, 0, 0, 1, 0, 1, 2, 3, 1⟩

end Phaser

namespace Phaser

/-- Helper: the boolean `isDirty` returns is true exactly when the live
monitored tuple differs from the snapshot. -/
theorem isDirty_fst_iff (m : Model) :
    m.isDirty.1 = true ↔ currentTuple m ≠ m.dirtyCache := by
  rcases m with ⟨vc, buf, ⟨px, py, pz⟩, ⟨sx, sy, sz⟩, ⟨rx, ry, rz, rw0⟩,
    ⟨c0, c1, c2, c3, c4, c5, c6, c7, c8, c9, c10⟩, nm, tm⟩
  simp [Model.isDirty, currentTuple, DirtyCache.mk.injEq]
  tauto

/-- Helper: a clean check leaves the model with only the snapshot refreshed. -/
theorem preUpdate_clean (m : Model) (h : currentTuple m = m.dirtyCache) :
    m.preUpdate = { m with dirtyCache := currentTuple m } := by
  have hb : m.isDirty.1 = false := by
    rw [Bool.eq_false_iff]
    intro hb
    exact (isDirty_fst_iff m).mp hb h
  simp [Model.preUpdate, hb]
  rfl

/-- Helper: a dirty check refreshes the snapshot and rebuilds both matrices. -/
theorem preUpdate_dirty (m : Model) (h : currentTuple m ≠ m.dirtyCache) :
    m.preUpdate = { m with
      dirtyCache := currentTuple m
      transformMatrix :=
        (Matrix4.fromRotationTranslation m.rotation m.position).scale m.scale
      normalMatrix :=
        ((Matrix4.fromRotationTranslation m.rotation m.position).scale m.scale).invert.transpose } := by
  have hb : m.isDirty.1 = true := (isDirty_fst_iff m).mpr h
  simp [Model.preUpdate, hb]
  exact ⟨rfl, rfl, rfl, rfl, rfl, rfl, rfl, rfl⟩

/-- Helper: after setting the position to (1, 2, 3) the monitored tuple
differs from the fresh snapshot, so the next tick recomputes. -/
theorem t123_dirty : currentTuple modelT123 ≠ modelT123.dirtyCache := by
  simp [modelT123, currentTuple, mkModel, Model.setX, Model.setY, Model.setZ,
    Quat.fresh, DirtyCache.mk.injEq]

/-- C1: at the failing input — the triangle model, face 0 — `getFace` returns
the numeric literal `3` as `vertex3`, not the decoded third vertex
`getVertex(2)`; the claimed equality with the decoded vertex fails. -/
theorem getFace_vertex3_literal :
    (modelTri.getFace 0).vertex3 = Sum.inr 3 ∧
    (modelTri.getFace 0).vertex3 ≠ Sum.inl (modelTri.getVertex 2) := by
  exact ⟨rfl, by decide⟩

/-- C2: at the failing input `addVertices([0,0,1,0,0,1], [0,0,1,0,0,1])` on a
fresh model, the call throws a `TypeError` — `this.vertices` is undefined on
`Model` — instead of appending 3 vertices: no successor state is produced and
`vertexCount` never changes. -/
theorem addVertices_typeError :
    (mkModel 3 0 0 0).addVertices [0, 0, 1, 0, 0, 1] [0, 0, 1, 0, 0, 1] none =
      Except.error MeshError.typeError := rfl

/-- C3: `isDirty` returns true exactly when the live 11-slot tuple differs
from the snapshot; it unconditionally overwrites the snapshot with the live
tuple; an immediately repeated call reports clean; and the call following any
mutation of monitored fields that changes the tuple reports dirty. -/
theorem isDirty_spec (m : Model) :
    (m.isDirty.1 = true ↔ currentTuple m ≠ m.dirtyCache) ∧
    m.isDirty.2.dirtyCache = currentTuple m ∧
    m.isDirty.2.isDirty.1 = false ∧
    (∀ m2 : Model, m2.dirtyCache = m.isDirty.2.dirtyCache →
      currentTuple m2 ≠ currentTuple m → m2.isDirty.1 = true) := by
  refine ⟨isDirty_fst_iff m, rfl, ?_, ?_⟩
  · rw [Bool.eq_false_iff]
    intro hb
    exact (isDirty_fst_iff _).mp hb rfl
  · intro m2 hc hne
    rw [isDirty_fst_iff m2, hc]
    exact hne

/-- C3 witness: a fresh model is checked, mutated through the `x` accessor,
and the following check reports dirty. -/
theorem isDirty_spec_witness :
    ((mkModel 2 0 0 0).isDirty.2.setX 5).isDirty.1 = true :=
  (isDirty_spec (mkModel 2 0 0 0)).2.2.2
    ((mkModel 2 0 0 0).isDirty.2.setX 5) rfl (by decide)

/-- C4: writing a vertex with `addVertex` into a slot inside the view and
reading that slot back with `getVertex` returns exactly the written
`(x, y, z, nx, ny, nz, u, v)` — layout `[x, y, z, nx, ny, nz, u, v]` at
offset `vertexCount · 8` floats — with `alpha = 1` regardless of input. -/
theorem addVertex_getVertex_roundtrip (m : Model) (x y z u v nx ny nz : ℚ)
    (h : m.vertexCount * 8 + 8 ≤ m.vertexViewF32.length) :
    (m.addVertex x y z u v nx ny nz).getVertex m.vertexCount =
      { x := some x, y := some y, z := some z, u := some u, v := some v,
        normalX := some nx, normalY := some ny, normalZ := some nz, alpha := 1 } := by
  rcases m with ⟨vc, buf, pos, sc, rot, c, nm, tm⟩
  simp only at h
  simp only [Model.addVertex, Model.getVertex, Vertex.mk.injEq]
  refine ⟨?_, ?_, ?_, ?_, ?_, ?_, ?_, ?_, trivial⟩
  · rw [List.getElem?_set_ne (show vc * 8 + 7 ≠ vc * 8 by omega),
      List.getElem?_set_ne (show vc * 8 + 6 ≠ vc * 8 by omega),
      List.getElem?_set_ne (show vc * 8 + 5 ≠ vc * 8 by omega),
      List.getElem?_set_ne (show vc * 8 + 4 ≠ vc * 8 by omega),
      List.getElem?_set_ne (show vc * 8 + 3 ≠ vc * 8 by omega),
      List.getElem?_set_ne (show vc * 8 + 2 ≠ vc * 8 by omega),
      List.getElem?_set_ne (show vc * 8 + 1 ≠ vc * 8 by omega),
      List.getElem?_set_eq_of_lt]
    omega
  · rw [List.getElem?_set_ne (show vc * 8 + 7 ≠ vc * 8 + 1 by omega),
      List.getElem?_set_ne (show vc * 8 + 6 ≠ vc * 8 + 1 by omega),
      List.getElem?_set_ne (show vc * 8 + 5 ≠ vc * 8 + 1 by omega),
      List.getElem?_set_ne (show vc * 8 + 4 ≠ vc * 8 + 1 by omega),
      List.getElem?_set_ne (show vc * 8 + 3 ≠ vc * 8 + 1 by omega),
      List.getElem?_set_ne (show vc * 8 + 2 ≠ vc * 8 + 1 by omega),
      List.getElem?_set_eq_of_lt]
    simp only [List.length_set]
    omega
  · rw [List.getElem?_set_ne (show vc * 8 + 7 ≠ vc * 8 + 2 by omega),
      List.getElem?_set_ne (show vc * 8 + 6 ≠ vc * 8 + 2 by omega),
      List.getElem?_set_ne (show vc * 8 + 5 ≠ vc * 8 + 2 by omega),
      List.getElem?_set_ne (show vc * 8 + 4 ≠ vc * 8 + 2 by omega),
      List.getElem?_set_ne (show vc * 8 + 3 ≠ vc * 8 + 2 by omega),
      List.getElem?_set_eq_of_lt]
    simp only [List.length_set]
    omega
  · rw [List.getElem?_set_ne (show vc * 8 + 7 ≠ vc * 8 + 6 by omega),
      List.getElem?_set_eq_of_lt]
    simp only [List.length_set]
    omega
  · rw [List.getElem?_set_eq_of_lt]
    simp only [List.length_set]
    omega
  · rw [List.getElem?_set_ne (show vc * 8 + 7 ≠ vc * 8 + 3 by omega),
      List.getElem?_set_ne (show vc * 8 + 6 ≠ vc * 8 + 3 by omega),
      List.getElem?_set_ne (show vc * 8 + 5 ≠ vc * 8 + 3 by omega),
      List.getElem?_set_ne (show vc * 8 + 4 ≠ vc * 8 + 3 by omega),
      List.getElem?_set_eq_of_lt]
    simp only [List.length_set]
    omega
  · rw [List.getElem?_set_ne (show vc * 8 + 7 ≠ vc * 8 + 4 by omega),
      List.getElem?_set_ne (show vc * 8 + 6 ≠ vc * 8 + 4 by omega),
      List.getElem?_set_ne (show vc * 8 + 5 ≠ vc * 8 + 4 by omega),
      List.getElem?_set_eq_of_lt]
    simp only [List.length_set]
    omega
  · rw [List.getElem?_set_ne (show vc * 8 + 7 ≠ vc * 8 + 5 by omega),
      List.getElem?_set_ne (show vc * 8 + 6 ≠ vc * 8 + 5 by omega),
      List.getElem?_set_eq_of_lt]
    simp only [List.length_set]
    omega

/-- C4 witness: a concrete round-trip through slot 0. -/
theorem addVertex_getVertex_roundtrip_witness :
    ((mkModel 1 0 0 0).addVertex 1 2 3 4 5 6 7 8).getVertex 0 =
      { x := some 1, y := some 2, z := some 3, u := some 4, v := some 5,
        normalX := some 6, normalY := some 7, normalZ := some 8, alpha := 1 } :=
  addVertex_getVertex_roundtrip (mkModel 1 0 0 0) 1 2 3 4 5 6 7 8 (by decide)

/-- C5: a length mismatch between `vertices` and `uvs` makes `addVertices`
throw the shape-mismatch error synchronously, before anything else: no
successor state is produced, so `vertexCount` and the buffer are untouched. -/
theorem addVertices_shape_mismatch (m : Model) (vertices uvs : List ℚ)
    (indicies : Option (List ℕ)) (h : vertices.length ≠ uvs.length) :
    m.addVertices vertices uvs indicies = Except.error MeshError.shapeMismatch := by
  simp [Model.addVertices, h]

/-- C5 witness: a concrete mismatched call. -/
theorem addVertices_shape_mismatch_witness :
    (mkModel 3 0 0 0).addVertices [0, 0] [0] none =
      Except.error MeshError.shapeMismatch :=
  addVertices_shape_mismatch (mkModel 3 0 0 0) [0, 0] [0] none (by decide)

/-- C6: when the live tuple equals the snapshot — nothing changed since the
last dirty check — the per-tick update leaves both matrices untouched; when
it differs, the update rebuilds `transformMatrix` as rotation+translation
composed first and then scaled by concatenation, and `normalMatrix` as the
transpose of the inverse of that same scaled transform matrix. -/
theorem preUpdate_spec (m : Model) :
    (currentTuple m = m.dirtyCache →
      m.preUpdate.transformMatrix = m.transformMatrix ∧
      m.preUpdate.normalMatrix = m.normalMatrix) ∧
    (currentTuple m ≠ m.dirtyCache →
      m.preUpdate.transformMatrix =
        (Matrix4.fromRotationTranslation m.rotation m.position).scale m.scale ∧
      m.preUpdate.normalMatrix =
        ((Matrix4.fromRotationTranslation m.rotation m.position).scale m.scale).invert.transpose) := by
  constructor
  · intro h
    rw [preUpdate_clean m h]
    exact ⟨rfl, rfl⟩
  · intro h
    rw [preUpdate_dirty m h]
    exact ⟨rfl, rfl⟩

/-- C6 witness: a clean fresh model keeps its transform matrix; a model moved
through the `x` accessor gets the rebuilt one. -/
theorem preUpdate_spec_witness :
    (mkModel 1 0 0 0).preUpdate.transformMatrix = (mkModel 1 0 0 0).transformMatrix ∧
    ((mkModel 1 0 0 0).setX 4).preUpdate.transformMatrix =
      (Matrix4.fromRotationTranslation ((mkModel 1 0 0 0).setX 4).rotation
        ((mkModel 1 0 0 0).setX 4).position).scale ((mkModel 1 0 0 0).setX 4).scale :=
  ⟨((preUpdate_spec (mkModel 1 0 0 0)).1 (by decide)).1,
   ((preUpdate_spec ((mkModel 1 0 0 0).setX 4)).2 (by decide)).1⟩

/-- C7 counterexample: after the recompute at position (1, 2, 3), identity
rotation and unit scale, the transform matrix is the pure translation, but
the normal matrix is not the identity matrix. -/
theorem preUpdate_normal_not_identity :
    modelT123.preUpdate.transformMatrix = translation123 ∧
    modelT123.preUpdate.normalMatrix ≠ Matrix4.identity := by
  rw [preUpdate_dirty _ t123_dirty]
  constructor
  · show (Matrix4.fromRotationTranslation modelT123.rotation modelT123.position).scale
      modelT123.scale = translation123
    simp only [modelT123, Model.setX, Model.setY, Model.setZ, mkModel, Quat.fresh]
    norm_num [Matrix4.fromRotationTranslation, Matrix4.scale, translation123, Matrix4.mk.injEq]
  · show ((Matrix4.fromRotationTranslation modelT123.rotation modelT123.position).scale
      modelT123.scale).invert.transpose ≠ Matrix4.identity
    simp only [modelT123, Model.setX, Model.setY, Model.setZ, mkModel, Quat.fresh]
    norm_num [Matrix4.fromRotationTranslation, Matrix4.scale, Matrix4.invert,
      Matrix4.transpose, Matrix4.identity, Matrix4.mk.injEq]

/-- C7 amended: the recompute yields the pure translation matrix by (1, 2, 3)
as `transformMatrix`, and `normalMatrix` equal to the transpose of the
inverse of that translation matrix: identity except slots `m3`, `m7`, `m11`
(the transposed translation slots) holding −1, −2, −3 — in particular its
upper-left 3×3 block is the identity. -/
theorem preUpdate_translation_amended :
    modelT123.preUpdate.transformMatrix = translation123 ∧
    modelT123.preUpdate.normalMatrix =
      ⟨1, 0, 0, -1, 0, 1, 0, -2, 0, 0, 1, -3, 0, 0, 0, 1⟩ := by
  rw [preUpdate_dirty _ t123_dirty]
  constructor
  · show (Matrix4.fromRotationTranslation modelT123.rotation modelT123.position).scale
      modelT123.scale = translation123
    simp only [modelT123, Model.setX, Model.setY, Model.setZ, mkModel, Quat.fresh]
    norm_num [Matrix4.fromRotationTranslation, Matrix4.scale, translation123, Matrix4.mk.injEq]
  · show ((Matrix4.fromRotationTranslation modelT123.rotation modelT123.position).scale
      modelT123.scale).invert.transpose = _
    simp only [modelT123, Model.setX, Model.setY, Model.setZ, mkModel, Quat.fresh]
    norm_num [Matrix4.fromRotationTranslation, Matrix4.scale, Matrix4.invert,
      Matrix4.transpose, Matrix4.mk.injEq]

/-- C8: for a face whose three constituent vertices decode to concrete
coordinates, `isCounterClockwise` is true exactly when the 2D cross product
`(v2.x−v1.x)·(v3.y−v1.y) − (v2.y−v1.y)·(v3.x−v1.x)` is ≥ 0. -/
theorem getFace_ccw (m : Model) (i : ℕ) (x1 y1 x2 y2 x3 y3 : ℚ)
    (h1 : (m.getVertex (i * 3)).x = some x1)
    (h2 : (m.getVertex (i * 3)).y = some y1)
    (h3 : (m.getVertex (i * 3 + 1)).x = some x2)
    (h4 : (m.getVertex (i * 3 + 1)).y = some y2)
    (h5 : (m.getVertex (i * 3 + 2)).x = some x3)
    (h6 : (m.getVertex (i * 3 + 2)).y = some y3) :
    (m.getFace i).isCounterClockwise =
      decide (0 ≤ (x2 - x1) * (y3 - y1) - (y2 - y1) * (x3 - x1)) := by
  simp [Model.getFace, h1, h2, h3, h4, h5, h6, jsub, jmul, jge0]

/-- C8 witness: the triangle (0,0), (1,0), (0,1) reports counter-clockwise
and the triangle (0,0), (0,1), (1,0) reports clockwise. -/
theorem getFace_ccw_witness :
    (modelTri.getFace 0).isCounterClockwise = true ∧
    (modelTriCW.getFace 0).isCounterClockwise = false := by
  constructor
  · rw [getFace_ccw modelTri 0 0 0 1 0 0 1 (by decide) (by decide) (by decide)
      (by decide) (by decide) (by decide)]
    norm_num
  · rw [getFace_ccw modelTriCW 0 0 0 0 1 1 0 (by decide) (by decide) (by decide)
      (by decide) (by decide) (by decide)]
    norm_num

/-- C9: a freshly constructed model at any position has its snapshot
pre-seeded with that position, identity rotation, unit scale and vertex count
0 — equal to the live tuple — so the first dirty check reports clean and the
first per-tick update leaves both matrices the identity. -/
theorem mkModel_first_tick_clean (cap : ℕ) (x y z : ℚ) :
    (mkModel cap x y z).dirtyCache = ⟨x, y, z, 0, 0, 0, 1, 1, 1, 1, 0⟩ ∧
    currentTuple (mkModel cap x y z) = (mkModel cap x y z).dirtyCache ∧
    (mkModel cap x y z).isDirty.1 = false ∧
    (mkModel cap x y z).preUpdate.transformMatrix = Matrix4.identity ∧
    (mkModel cap x y z).preUpdate.normalMatrix = Matrix4.identity := by
  have ht : currentTuple (mkModel cap x y z) = (mkModel cap x y z).dirtyCache := by
    simp [currentTuple, mkModel, Quat.fresh]
  refine ⟨rfl, ht, ?_, ?_, ?_⟩
  · rw [Bool.eq_false_iff]
    intro hb
    exact (isDirty_fst_iff _).mp hb ht
  · rw [preUpdate_clean _ ht]
    rfl
  · rw [preUpdate_clean _ ht]
    rfl

/-- C10: with the buffer already full — `vertexCount · 8` at or past the
view length — `addVertex` still increments `vertexCount`, and every
typed-array write is silently discarded: the resulting state is exactly the
old one with `vertexCount + 1`, the buffer bit-for-bit unchanged. -/
theorem addVertex_past_capacity (m : Model) (x y z u v nx ny nz : ℚ)
    (h : m.vertexViewF32.length ≤ m.vertexCount * 8) :
    m.addVertex x y z u v nx ny nz = { m with vertexCount := m.vertexCount + 1 } := by
  rcases m with ⟨vc, buf, pos, sc, rot, c, nm, tm⟩
  simp only at h
  simp only [Model.addVertex]
  have s0 : buf.set (vc * 8) x = buf := List.set_eq_of_length_le (by omega)
  rw [s0]
  have s1 : buf.set (vc * 8 + 1) y = buf := List.set_eq_of_length_le (by omega)
  rw [s1]
  have s2 : buf.set (vc * 8 + 2) z = buf := List.set_eq_of_length_le (by omega)
  rw [s2]
  have s3 : buf.set (vc * 8 + 3) nx = buf := List.set_eq_of_length_le (by omega)
  rw [s3]
  have s4 : buf.set (vc * 8 + 4) ny = buf := List.set_eq_of_length_le (by omega)
  rw [s4]
  have s5 : buf.set (vc * 8 + 5) nz = buf := List.set_eq_of_length_le (by omega)
  rw [s5]
  have s6 : buf.set (vc * 8 + 6) u = buf := List.set_eq_of_length_le (by omega)
  rw [s6]
  have s7 : buf.set (vc * 8 + 7) v = buf := List.set_eq_of_length_le (by omega)
  rw [s7]

/-- C10 witness: appending to a zero-capacity model only bumps the count. -/
theorem addVertex_past_capacity_witness :
    (mkModel 0 0 0 0).addVertex 9 9 9 9 9 9 9 9 =
      { mkModel 0 0 0 0 with vertexCount := 1 } :=
  addVertex_past_capacity (mkModel 0 0 0 0) 9 9 9 9 9 9 9 9 (by decide)

end Phaser
